import Mathlib

/-!
Shallow embedding of the IoT_Data_Logger orchestration core:
state machines, circuit breaker, condition-edge trigger, connect-with-retry,
startup command pipeline, and the configuration-change event bus.
Each definition mirrors the corresponding Python source in src/.
-/

namespace IoTLogger

/-! ### Client connection state machine — src/core/patterns/state_machine.py -/

/-- States of the per-connection client state machine (class ClientState). -/
inductive ClientState where
  | DISCONNECTED
  | CONNECTING
  | CONNECTED
  | CONFIGURING
  | LOGGING
  | RECONNECTING
  | ERROR
  | SHUTDOWN
deriving DecidableEq, Repr

/-- The transition table built in StateMachine.__init__ (self._trans). -/
def clientTrans : ClientState → List ClientState
  | .DISCONNECTED => [.CONNECTING, .SHUTDOWN]
  | .CONNECTING   => [.CONNECTED, .ERROR]
  | .CONNECTED    => [.CONFIGURING, .LOGGING, .DISCONNECTED]
  | .CONFIGURING  => [.LOGGING, .ERROR, .CONNECTED]
  | .LOGGING      => [.CONFIGURING, .RECONNECTING, .DISCONNECTED]
  | .RECONNECTING => [.CONNECTED, .ERROR, .DISCONNECTED]
  | .ERROR        => [.CONNECTING, .SHUTDOWN]
  | .SHUTDOWN     => []

/-- StateMachine.can: membership test of the target in the current state's row. -/
def clientCan (s nxt : ClientState) : Bool := decide (nxt ∈ clientTrans s)

/-- StateMachine.transition: returns the success flag and the state afterwards. -/
def clientTransition (s nxt : ClientState) : Bool × ClientState :=
  if clientCan s nxt then (true, nxt) else (false, s)

/-! ### Orchestration state machine — src/orchestration/state_machine.py -/

/-- States of the system-wide orchestration state machine (class OrchestrationState). -/
inductive OrchestrationState where
  | INITIALIZING
  | DEVICE_DISCOVERY
  | CLIENT_CREATION
  | CONFIGURATION_ENRICHMENT
  | LOGGING_STARTUP
  | OPERATIONAL
  | ERROR_RECOVERY
  | SHUTDOWN
deriving DecidableEq, Repr

/-- The valid_transitions table built in OrchestrationStateMachine.__init__. -/
def validTransitions : OrchestrationState → List OrchestrationState
  | .INITIALIZING => [.DEVICE_DISCOVERY, .SHUTDOWN]
  | .DEVICE_DISCOVERY => [.CLIENT_CREATION, .ERROR_RECOVERY]
  | .CLIENT_CREATION => [.CONFIGURATION_ENRICHMENT, .ERROR_RECOVERY]
  | .CONFIGURATION_ENRICHMENT => [.LOGGING_STARTUP, .ERROR_RECOVERY]
  | .LOGGING_STARTUP => [.OPERATIONAL, .ERROR_RECOVERY]
  | .OPERATIONAL => [.ERROR_RECOVERY, .SHUTDOWN]
  | .ERROR_RECOVERY => [.DEVICE_DISCOVERY, .SHUTDOWN]
  | .SHUTDOWN => []

/-- OrchestrationStateMachine.can_transition_to. -/
def can_transition_to (cur new : OrchestrationState) : Bool :=
  decide (new ∈ validTransitions cur)

/-- OrchestrationStateMachine.transition_to: returns the success flag and the
state afterwards (on failure it logs and leaves the state unchanged). -/
def transition_to (cur new : OrchestrationState) : Bool × OrchestrationState :=
  if can_transition_to cur new then (true, new) else (false, cur)

/-! ### Circuit breaker — src/core/patterns/circuit_breaker.py -/

/-- BreakerConfig dataclass; timeout is in seconds. -/
structure BreakerConfig where
  failure_threshold : Nat := 5
  success_threshold : Nat := 3
  timeout : ℚ := 60
deriving DecidableEq, Repr

/-- BreakerState enum. -/
inductive BreakerState where
  | CLOSED
  | OPEN
  | HALF_OPEN
deriving DecidableEq, Repr

/-- The mutable fields of class CircuitBreaker. -/
structure CircuitBreaker where
  state : BreakerState := .CLOSED
  fail : Nat := 0
  ok : Nat := 0
  last_fail_ts : ℚ := 0
deriving DecidableEq, Repr

/-- What one CircuitBreaker.__call__ does from the caller's point of view. -/
inductive CallOutcome where
  | rejectedOpen
  | returned
  | raised
deriving DecidableEq, Repr

/-- The gate at the top of CircuitBreaker.__call__: when the breaker is OPEN,
the call is rejected unless more than cfg.timeout seconds have passed since the
last failure, in which case the breaker moves to HALF_OPEN with the success
counter reset and the wrapped operation is invoked. Returns (invoke?, breaker). -/
def cbPermit (cfg : BreakerConfig) (b : CircuitBreaker) (now : ℚ) :
    Bool × CircuitBreaker :=
  if b.state = .OPEN then
    if cfg.timeout < now - b.last_fail_ts then
      (true, { b with state := .HALF_OPEN, ok := 0 })
    else
      (false, b)
  else (true, b)

/-- CircuitBreaker._on_success. -/
def cbOnSuccess (cfg : BreakerConfig) (b : CircuitBreaker) : CircuitBreaker :=
  if b.state = .HALF_OPEN then
    let b1 := { b with ok := b.ok + 1 }
    if cfg.success_threshold ≤ b1.ok then
      { b1 with state := .CLOSED, fail := 0 }
    else b1
  else { b with fail := 0 }

/-- CircuitBreaker._on_fail, with `now` standing for time.time(). -/
def cbOnFail (cfg : BreakerConfig) (b : CircuitBreaker) (now : ℚ) : CircuitBreaker :=
  let b1 := { b with fail := b.fail + 1, last_fail_ts := now }
  if cfg.failure_threshold ≤ b1.fail then { b1 with state := .OPEN } else b1

/-- CircuitBreaker.__call__: `fnOk` tells whether the wrapped awaited operation
succeeds when invoked. -/
def cbCall (cfg : BreakerConfig) (b : CircuitBreaker) (now : ℚ) (fnOk : Bool) :
    CircuitBreaker × CallOutcome :=
  match cbPermit cfg b now with
  | (false, b1) => (b1, .rejectedOpen)
  | (true, b1) =>
      if fnOk then (cbOnSuccess cfg b1, .returned)
      else (cbOnFail cfg b1 now, .raised)

/-- A sequence of calls through the breaker, each with a wall-clock time and the
wrapped operation's result. -/
def cbRun (cfg : BreakerConfig) (b : CircuitBreaker) (calls : List (ℚ × Bool)) :
    CircuitBreaker :=
  calls.foldl (fun acc c => (cbCall cfg acc c.1 c.2).1) b

/-! ### Condition-edge trigger — src/triggers/condition_trigger.py -/

/-- Edge mode of a ConditionBasedTriggerStrategy (self.edge_type). -/
inductive EdgeType where
  | rising
  | falling
  | both
deriving DecidableEq, Repr

/-- Mutable trigger state: last_condition_state and execution_count. -/
structure TriggerState where
  last_condition_state : Option Bool := none
  execution_count : Nat := 0
deriving DecidableEq, Repr

/-- ConditionBasedTriggerStrategy._detect_edge. -/
def detect_edge (edge_type : EdgeType) (previous current : Bool) : Bool :=
  match edge_type with
  | .rising => !previous && current
  | .falling => previous && !current
  | .both => previous != current

/-- ConditionBasedTriggerStrategy._evaluate_condition, with the outcome of
running eval on the expression and sample passed in: either a boolean or an
error. The bare except clause swallows any error and returns False without
logging. -/
def evaluate_condition (res : Except Unit Bool) : Bool :=
  match res with
  | .ok b => b
  | .error _ => false

/-- ConditionBasedTriggerStrategy.should_trigger, the data sample represented
by the outcome of evaluating the condition expression on it. Returns the fire
decision together with the updated trigger state. -/
def should_trigger (edge_type : EdgeType) (st : TriggerState)
    (res : Except Unit Bool) : Bool × TriggerState :=
  let current := evaluate_condition res
  match st.last_condition_state with
  | none =>
      if current then
        (true, { last_condition_state := some current,
                 execution_count := st.execution_count + 1 })
      else
        (false, { st with last_condition_state := some current })
  | some previous =>
      if detect_edge edge_type previous current then
        (true, { last_condition_state := some current,
                 execution_count := st.execution_count + 1 })
      else
        (false, { st with last_condition_state := some current })

/-- Folding should_trigger over a sequence of evaluation outcomes, collecting
each step's fire decision. -/
def runTrigger (edge_type : EdgeType) (st : TriggerState) :
    List (Except Unit Bool) → List Bool
  | [] => []
  | r :: rs =>
      let step := should_trigger edge_type st r
      step.1 :: runTrigger edge_type step.2 rs

/-! ### Configuration change bus — src/core/patterns/observer.py -/

/-- ChangeType enum. -/
inductive ChangeType where
  | DEVICE_ADDED
  | DEVICE_REMOVED
  | DEVICE_MODIFIED
  | TRIGGER_MODIFIED
  | MAPPING_MODIFIED
  | PROTOCOL_CONFIG_MODIFIED
deriving DecidableEq, Repr

/-- ConfigurationChangeEvent, reduced to the fields the bus itself inspects. -/
structure ConfigurationChangeEvent where
  change_type : ChangeType
  entity_id : String
deriving DecidableEq, Repr

/-- Result of awaiting asyncio.Queue.put on a bounded queue. Per the asyncio
semantics, when maxsize is positive and the queue already holds maxsize items,
put suspends the calling coroutine until a slot frees; it never raises
QueueFull (only put_nowait does). Otherwise the item is appended. -/
inductive PutResult where
  | enqueued (queue : List ConfigurationChangeEvent)
  | suspended
deriving DecidableEq, Repr

/-- The await self._event_queue.put(event) step of AsyncEventBus.publish. -/
def queuePut (maxsize : Nat) (queue : List ConfigurationChangeEvent)
    (event : ConfigurationChangeEvent) : PutResult :=
  if 0 < maxsize ∧ maxsize ≤ queue.length then .suspended
  else .enqueued (queue ++ [event])

/-- What AsyncEventBus.publish does to the publisher: either the event is
enqueued, or the event is dropped with a logged error (the except
asyncio.QueueFull branch), or the publisher stays suspended inside await put. -/
inductive PublishOutcome where
  | enqueued (queue : List ConfigurationChangeEvent)
  | droppedLogged
  | blocksPublisher
deriving DecidableEq, Repr

/-- AsyncEventBus.publish: awaits queue.put inside try/except asyncio.QueueFull.
The except branch would drop and log, but it runs only if put raises QueueFull,
which await put never does — a full queue suspends the publisher instead. -/
def publish (max_queue_size : Nat) (queue : List ConfigurationChangeEvent)
    (event : ConfigurationChangeEvent) : PublishOutcome :=
  match queuePut max_queue_size queue event with
  | .enqueued q => .enqueued q
  | .suspended => .blocksPublisher

/-! ### Startup command pipeline — src/orchestration/orchestrator.py -/

/-- Outcome of awaiting one orchestration command's execute(): a result with
success True, a result with success False, or a raised exception. -/
inductive CmdOutcome where
  | success
  | failure
  | exc
deriving DecidableEq, Repr

/-- Net effect of DataLoggingOrchestrator.startup: the returned boolean, the
state machine's final state, the indices of the commands rolled back in the
order their rollback() ran, and executed_commands afterwards. -/
structure StartupResult where
  returned : Bool
  finalState : OrchestrationState
  rolledBack : List Nat
  executedAfter : List Nat
deriving DecidableEq, Repr

/-- The for-loop of startup over the remaining (command index, target state)
pairs, threading the state machine's state and executed_commands. A result
with success False triggers _rollback_commands (reverse order) and returns
False with no further state transition; an exception — including the
RuntimeError raised when a state transition fails — is caught by the outer
handler, which rolls back, transitions to ERROR_RECOVERY and returns False.
After the loop, startup attempts the transition to OPERATIONAL and returns
True whether or not that transition succeeded. -/
def startupGo (beh : Nat → CmdOutcome) :
    List (Nat × OrchestrationState) → OrchestrationState → List Nat → StartupResult
  | [], st, executed =>
      ⟨true, (transition_to st .OPERATIONAL).2, [], executed⟩
  | (i, target) :: rest, st, executed =>
      let tr := transition_to st target
      if tr.1 then
        match beh i with
        | .success => startupGo beh rest tr.2 (executed ++ [i])
        | .failure => ⟨false, tr.2, executed.reverse, []⟩
        | .exc => ⟨false, (transition_to tr.2 .ERROR_RECOVERY).2, executed.reverse, []⟩
      else
        ⟨false, (transition_to tr.2 .ERROR_RECOVERY).2, executed.reverse, []⟩

/-- DataLoggingOrchestrator.startup, with command i's execute() outcome given
by beh i (0 = DeviceDiscovery, 1 = ClientCreation, 2 = ConfigurationEnrichment)
and the state machine starting at INITIALIZING as built in __init__. -/
def startup (beh : Nat → CmdOutcome) : StartupResult :=
  startupGo beh
    [(0, .DEVICE_DISCOVERY), (1, .CLIENT_CREATION), (2, .CONFIGURATION_ENRICHMENT)]
    .INITIALIZING []

/-- A behaviour assigning concrete outcomes to the three startup commands. -/
def behOf (o0 o1 o2 : CmdOutcome) : Nat → CmdOutcome
  | 0 => o0
  | 1 => o1
  | _ => o2

/-! ### Connect-with-retry — src/protocols/base_protocol_client.py -/

/-- ConnectionState enum of the protocol client framework. -/
inductive ConnectionState where
  | DISCONNECTED
  | CONNECTING
  | CONNECTED
  | RECONNECTING
  | ERROR
deriving DecidableEq, Repr

/-- The fields of ProtocolClientConfig that _connect_with_retry reads. -/
structure RetryConfig where
  max_retries : Int := 5
  retry_delay : ℚ := 1
  max_retry_delay : ℚ := 60
deriving DecidableEq, Repr

/-- The client fields _connect_with_retry reads and writes. -/
structure ClientConn where
  running : Bool
  retry_count : Int
  connection_state : ConnectionState
deriving DecidableEq, Repr

/-- Observable actions of _connect_with_retry, in program order: a _connect()
attempt with its result, an assignment to self.connection_state, and an
asyncio.sleep of the computed backoff delay. -/
inductive RetryEvent where
  | attempt (ok : Bool)
  | setState (s : ConnectionState)
  | sleep (delay : ℚ)
deriving DecidableEq, Repr

/-- How _connect_with_retry returns to its caller. -/
inductive RetryOutcome where
  | connected
  | connError
  | loopExit
deriving DecidableEq, Repr

/-- A run of _connect_with_retry: final client fields, the ordered observable
events, and how the method returned. -/
structure RetryResult where
  client : ClientConn
  events : List RetryEvent
  outcome : RetryOutcome
deriving DecidableEq, Repr

/-- The while loop of _connect_with_retry, with conn giving the result of the
k-th overall self._connect() attempt. The loop runs while self.running and
retry_count < max_retries; a successful attempt sets CONNECTED and resets
retry_count; a failed attempt increments retry_count, sets RECONNECTING, and
either raises ConnectionError after setting ERROR (when retry_count reached
max_retries) or sleeps min(retry_delay * 2^(retry_count-1), max_retry_delay)
and loops. -/
def connectRetryGo (cfg : RetryConfig) (conn : Nat → Bool) (idx : Nat)
    (c : ClientConn) : RetryResult :=
  if h : c.running = true ∧ c.retry_count < cfg.max_retries then
    if conn idx then
      ⟨{ c with connection_state := .CONNECTED, retry_count := 0 },
       [.setState .CONNECTING, .attempt true, .setState .CONNECTED], .connected⟩
    else
      if hm : cfg.max_retries ≤ c.retry_count + 1 then
        ⟨{ c with retry_count := c.retry_count + 1, connection_state := .ERROR },
         [.setState .CONNECTING, .attempt false, .setState .RECONNECTING,
          .setState .ERROR],
         .connError⟩
      else
        let delay := min (cfg.retry_delay * 2 ^ (c.retry_count + 1 - 1).toNat)
          cfg.max_retry_delay
        let rest := connectRetryGo cfg conn (idx + 1)
          { c with retry_count := c.retry_count + 1,
                   connection_state := .RECONNECTING }
        ⟨rest.client,
         .setState .CONNECTING :: .attempt false :: .setState .RECONNECTING ::
           .sleep delay :: rest.events,
         rest.outcome⟩
  else
    ⟨c, [], .loopExit⟩
termination_by (cfg.max_retries - c.retry_count).toNat
decreasing_by
  omega

/-- BaseProtocolClient._connect_with_retry: sets self.retry_count = 0 and runs
the while loop. -/
def connect_with_retry (cfg : RetryConfig) (conn : Nat → Bool) (c : ClientConn) :
    RetryResult :=
  connectRetryGo cfg conn 0 { c with retry_count := 0 }

/-- The backoff delays slept during a run, in order. -/
def sleeps (evs : List RetryEvent) : List ℚ :=
  evs.filterMap fun e => match e with | .sleep d => some d | _ => none

/-- Step 4 of BaseProtocolClient.start: _setup_monitoring is reached exactly
when the awaited _connect_with_retry returned instead of raising. -/
def startReachesMonitoring (cfg : RetryConfig) (conn : Nat → Bool)
    (c : ClientConn) : Bool :=
  match (connect_with_retry cfg conn c).outcome with
  | .connError => false
  | _ => true

end IoTLogger

namespace IoTLogger

/-- From a HALF_OPEN breaker whose success counter needs exactly k more
consecutive successes to reach the threshold, running k successful calls closes
the breaker and resets the failure counter. -/
theorem cbRun_halfopen_successes_close (cfg : BreakerConfig) :
    ∀ (k : Nat) (b : CircuitBreaker) (t : ℚ), b.state = .HALF_OPEN →
      b.ok + k = cfg.success_threshold → 1 ≤ k →
      (cbRun cfg b (List.replicate k (t, true))).state = .CLOSED
      ∧ (cbRun cfg b (List.replicate k (t, true))).fail = 0 := by
  intro k
  induction k with
  | zero => intro b t _ _ hk; omega
  | succ n ih =>
      intro b t hHO hsum _
      have hstep : cbRun cfg b (List.replicate (n + 1) (t, true))
          = cbRun cfg (cbOnSuccess cfg b) (List.replicate n (t, true)) := by
        simp [List.replicate_succ, cbRun, cbCall, cbPermit, hHO]
      cases n with
      | zero =>
          have hthr : cfg.success_threshold ≤ b.ok + 1 := by omega
          rw [hstep]
          simp [cbRun, cbOnSuccess, hHO, hthr]
      | succ m =>
          have hlt : ¬ cfg.success_threshold ≤ b.ok + 1 := by omega
          have hsucc : cbOnSuccess cfg b = { b with ok := b.ok + 1 } := by
            simp [cbOnSuccess, hHO, hlt]
          rw [hstep, hsucc]
          exact ih { b with ok := b.ok + 1 } t hHO
            (by show b.ok + 1 + (m + 1) = cfg.success_threshold; omega) (by omega)

/-- Claim C6: for both the client state machine and the orchestration state
machine, a transition from S to T succeeds (flag true, state becomes T) iff T is
in the allowed outgoing set of S; otherwise it returns false and the state
remains S. -/
theorem C6_transition_iff_allowed :
    (∀ s t : ClientState,
      ((clientTransition s t).1 = true ↔ t ∈ clientTrans s)
      ∧ ((clientTransition s t).1 = true → (clientTransition s t).2 = t)
      ∧ ((clientTransition s t).1 = false → (clientTransition s t).2 = s))
    ∧ (∀ s t : OrchestrationState,
      ((transition_to s t).1 = true ↔ t ∈ validTransitions s)
      ∧ ((transition_to s t).1 = true → (transition_to s t).2 = t)
      ∧ ((transition_to s t).1 = false → (transition_to s t).2 = s)) := by
  constructor
  · intro s t
    cases s <;> cases t <;> simp [clientTransition, clientCan, clientTrans]
  · intro s t
    cases s <;> cases t <;> simp [transition_to, can_transition_to, validTransitions]

/-- Witness for C6: a valid client transition moves the state, and an invalid
orchestration transition leaves it unchanged. -/
theorem C6_transition_iff_allowed_witness :
    (clientTransition .CONNECTED .LOGGING).2 = ClientState.LOGGING
    ∧ (transition_to .SHUTDOWN .INITIALIZING).2 = OrchestrationState.SHUTDOWN :=
  ⟨(C6_transition_iff_allowed.1 .CONNECTED .LOGGING).2.1 (by decide),
   (C6_transition_iff_allowed.2 .SHUTDOWN .INITIALIZING).2.2 (by decide)⟩

end IoTLogger

namespace IoTLogger

/-- Claim C4: while the breaker is OPEN and less than timeout seconds have
elapsed since the last failure, a call is rejected with the breaker-open error,
the wrapped operation is not invoked and the breaker (all counters included) is
unchanged; once more than timeout seconds have elapsed, the next call is
permitted, the breaker moves to HALF_OPEN, and the call is not rejected. -/
theorem C4_open_rejects_until_timeout (cfg : BreakerConfig) (b : CircuitBreaker)
    (now : ℚ) (fnOk : Bool) (hOpen : b.state = .OPEN) :
    (now - b.last_fail_ts < cfg.timeout →
      cbCall cfg b now fnOk = (b, .rejectedOpen))
    ∧ (cfg.timeout < now - b.last_fail_ts →
      (cbPermit cfg b now).1 = true
      ∧ (cbPermit cfg b now).2.state = .HALF_OPEN
      ∧ (cbCall cfg b now fnOk).2 ≠ .rejectedOpen) := by
  constructor
  · intro h
    have hnot : ¬ cfg.timeout < now - b.last_fail_ts := by linarith
    simp [cbCall, cbPermit, hOpen, hnot]
  · intro h
    refine ⟨by simp [cbPermit, hOpen, h], by simp [cbPermit, hOpen, h], ?_⟩
    cases fnOk <;> simp [cbCall, cbPermit, hOpen, h]

/-- Witness for C4: with the default config (timeout 60 s) and last failure at
time 0, a call at time 30 is rejected and leaves the breaker untouched, while
at time 100 the gate opens into HALF_OPEN. -/
theorem C4_open_rejects_until_timeout_witness :
    cbCall {} { state := .OPEN, fail := 5, last_fail_ts := 0 } 30 true
      = ({ state := .OPEN, fail := 5, last_fail_ts := 0 }, .rejectedOpen)
    ∧ (cbPermit {} { state := .OPEN, fail := 5, last_fail_ts := 0 } 100).2.state
      = BreakerState.HALF_OPEN :=
  ⟨(C4_open_rejects_until_timeout {} _ 30 true rfl).1 (by norm_num),
   ((C4_open_rejects_until_timeout {} _ 100 true rfl).2 (by norm_num)).2.1⟩

/-- Claim C5: a breaker sitting in HALF_OPEN after opening on
failure_threshold consecutive failures (so its failure counter is at least the
threshold and its success counter was reset to 0 by the gate):
success_threshold consecutive successful calls close it and reset the failure
counter, while a single failed call returns it to OPEN, and on the next permit
after the timeout the success counter is again reset to 0 before calls pass
through. -/
theorem C5_halfopen_close_or_reopen (cfg : BreakerConfig) (b : CircuitBreaker)
    (t tf : ℚ) (hHO : b.state = .HALF_OPEN) (hok : b.ok = 0)
    (hfail : cfg.failure_threshold ≤ b.fail) (hst : 1 ≤ cfg.success_threshold) :
    ((cbRun cfg b (List.replicate cfg.success_threshold (t, true))).state = .CLOSED
      ∧ (cbRun cfg b (List.replicate cfg.success_threshold (t, true))).fail = 0)
    ∧ ((cbCall cfg b tf false).1.state = .OPEN
      ∧ ∀ now : ℚ, cfg.timeout < now - (cbCall cfg b tf false).1.last_fail_ts →
          (cbPermit cfg (cbCall cfg b tf false).1 now).2.ok = 0
          ∧ (cbPermit cfg (cbCall cfg b tf false).1 now).2.state = .HALF_OPEN) := by
  refine ⟨cbRun_halfopen_successes_close cfg cfg.success_threshold b t hHO (by omega) hst, ?_, ?_⟩
  · have hthr : cfg.failure_threshold ≤ b.fail + 1 := by omega
    simp [cbCall, cbPermit, hHO, cbOnFail, hthr]
  · intro now hnow
    have hthr : cfg.failure_threshold ≤ b.fail + 1 := by omega
    have hb1 : (cbCall cfg b tf false).1
        = { b with state := .OPEN, fail := b.fail + 1, last_fail_ts := tf } := by
      simp [cbCall, cbPermit, hHO, cbOnFail, hthr]
    rw [hb1] at hnow ⊢
    constructor <;> simp [cbPermit, hnow]

/-- Witness for C5: with the default config, a HALF_OPEN breaker carrying 5
recorded failures closes after 3 successes, and reopens on one failure. -/
theorem C5_halfopen_close_or_reopen_witness :
    (cbRun {} { state := .HALF_OPEN, fail := 5, last_fail_ts := 0 }
        (List.replicate 3 (0, true))).state = BreakerState.CLOSED
    ∧ (cbCall {} { state := .HALF_OPEN, fail := 5, last_fail_ts := 0 } 7 false).1.state
      = BreakerState.OPEN :=
  ⟨(C5_halfopen_close_or_reopen {} _ 0 7 rfl rfl (by decide) (by decide)).1.1,
   (C5_halfopen_close_or_reopen {} _ 0 7 rfl rfl (by decide) (by decide)).2.1⟩

end IoTLogger

namespace IoTLogger

/-- Counterexample to claim C7: in falling mode with previous condition state
true, an evaluation error makes should_trigger return true (the trigger fires),
not false. -/
theorem C7_eval_error_fires_counterexample :
    (should_trigger .falling { last_condition_state := some true } (.error ())).1 = true := rfl

/-- Claim C7 (amended): an evaluation error is swallowed inside
_evaluate_condition without logging and treated exactly as the condition
evaluating to false — should_trigger makes the same decision and state update
as for an evaluated false and never propagates an exception; hence in falling
mode with previous state true the error fires the trigger, while in rising
mode an error never fires. -/
theorem C7_eval_error_as_false (edge_type : EdgeType) (st : TriggerState) :
    should_trigger edge_type st (.error ()) = should_trigger edge_type st (.ok false)
    ∧ (should_trigger .falling { st with last_condition_state := some true } (.error ())).1 = true
    ∧ (should_trigger .rising st (.error ())).1 = false := by
  refine ⟨rfl, rfl, ?_⟩
  cases hl : st.last_condition_state with
  | none => simp [should_trigger, evaluate_condition, hl]
  | some p => simp [should_trigger, evaluate_condition, detect_edge, hl]

/-- Claim C8: in rising mode the first evaluation triggers iff the condition is
true, each later evaluation triggers iff the previous evaluation was false and
the current one true, and on the evaluated sequence
[false, false, true, true, false, true] the trigger fires exactly at 0-based
indices 2 and 5. -/
theorem C8_rising_edge_semantics (c : Nat) (prev cur : Bool) :
    (should_trigger .rising { last_condition_state := none, execution_count := c } (.ok cur)).1 = cur
    ∧ (should_trigger .rising { last_condition_state := some prev, execution_count := c } (.ok cur)).1
      = (!prev && cur)
    ∧ runTrigger .rising {} ([false, false, true, true, false, true].map Except.ok)
      = [false, false, true, false, false, true] := by
  refine ⟨?_, ?_, rfl⟩
  · cases cur <;> rfl
  · cases prev <;> cases cur <;> rfl

end IoTLogger

namespace IoTLogger

/-- Claim C1 (code bug): with the queue already holding max_queue_size events,
AsyncEventBus.publish leaves the publisher suspended inside await queue.put;
the event is neither dropped nor logged on any input, because Queue.put never
raises QueueFull, so the drop-and-log except branch is unreachable. -/
theorem C1_publish_full_queue_blocks (maxq : Nat)
    (queue : List ConfigurationChangeEvent) (event : ConfigurationChangeEvent)
    (h0 : 0 < maxq) (hfull : maxq ≤ queue.length) :
    publish maxq queue event = .blocksPublisher
    ∧ ∀ (m : Nat) (q : List ConfigurationChangeEvent)
        (e : ConfigurationChangeEvent), publish m q e ≠ .droppedLogged := by
  constructor
  · simp [publish, queuePut, h0, hfull]
  · intro m q e
    by_cases h : 0 < m ∧ m ≤ q.length <;> simp [publish, queuePut, h]

/-- Witness for C1: a bus with max_queue_size 1 and one queued event blocks a
second publish. -/
theorem C1_publish_full_queue_blocks_witness :
    publish 1 [⟨.DEVICE_ADDED, "d1"⟩] ⟨.TRIGGER_MODIFIED, "d2"⟩
      = PublishOutcome.blocksPublisher :=
  (C1_publish_full_queue_blocks 1 [⟨.DEVICE_ADDED, "d1"⟩] ⟨.TRIGGER_MODIFIED, "d2"⟩
    (by decide) (by simp)).1

/-- Counterexample to claim C2: when ClientCreation returns an unsuccessful
result after DeviceDiscovery succeeded, startup returns False and rolls back
DeviceDiscovery, but the state machine stays in CLIENT_CREATION — it is never
transitioned to ERROR_RECOVERY. -/
theorem C2_failure_no_error_recovery_counterexample :
    (startup (behOf .success .failure .success)).returned = false
    ∧ (startup (behOf .success .failure .success)).rolledBack = [0]
    ∧ (startup (behOf .success .failure .success)).finalState = .CLIENT_CREATION
    ∧ (startup (behOf .success .failure .success)).finalState ≠ .ERROR_RECOVERY := by
  decide

/-- Claim C2 (amended): whenever a startup command fails or raises, startup
rolls back all previously-executed commands in strict reverse order and
returns False — when ClientCreation fails only DeviceDiscovery is rolled back,
and when ConfigurationEnrichment fails ClientCreation is rolled back before
DeviceDiscovery; but the state machine transitions to ERROR_RECOVERY only when
the command raised an exception, while after a command that merely returned an
unsuccessful result the state remains the failed command's state. -/
theorem C2_rollback_reverse_order (o0 o1 o2 : CmdOutcome) :
    (o0 = .failure →
      startup (behOf o0 o1 o2) = ⟨false, .DEVICE_DISCOVERY, [], []⟩)
    ∧ (o0 = .exc →
      startup (behOf o0 o1 o2) = ⟨false, .ERROR_RECOVERY, [], []⟩)
    ∧ (o0 = .success → o1 = .failure →
      startup (behOf o0 o1 o2) = ⟨false, .CLIENT_CREATION, [0], []⟩)
    ∧ (o0 = .success → o1 = .exc →
      startup (behOf o0 o1 o2) = ⟨false, .ERROR_RECOVERY, [0], []⟩)
    ∧ (o0 = .success → o1 = .success → o2 = .failure →
      startup (behOf o0 o1 o2) = ⟨false, .CONFIGURATION_ENRICHMENT, [1, 0], []⟩)
    ∧ (o0 = .success → o1 = .success → o2 = .exc →
      startup (behOf o0 o1 o2) = ⟨false, .ERROR_RECOVERY, [1, 0], []⟩) := by
  cases o0 <;> cases o1 <;> cases o2 <;> decide

/-- Witness for C2 (amended): ConfigurationEnrichment failing rolls back
ClientCreation before DeviceDiscovery and leaves the state machine in
CONFIGURATION_ENRICHMENT. -/
theorem C2_rollback_reverse_order_witness :
    startup (behOf .success .success .failure)
      = ⟨false, .CONFIGURATION_ENRICHMENT, [1, 0], []⟩ :=
  (C2_rollback_reverse_order .success .success .failure).2.2.2.2.1 rfl rfl rfl

/-- Claim C3 (code bug): when all three commands succeed, startup returns
True, but the closing transition_to OPERATIONAL is rejected — OPERATIONAL is
not in the table row of CONFIGURATION_ENRICHMENT, and no LOGGING_STARTUP
command exists in the pipeline — so the state machine ends in
CONFIGURATION_ENRICHMENT instead of OPERATIONAL. -/
theorem C3_success_returns_true_but_not_operational :
    startup (behOf .success .success .success)
      = ⟨true, .CONFIGURATION_ENRICHMENT, [], [0, 1, 2]⟩
    ∧ (startup (behOf .success .success .success)).finalState ≠ .OPERATIONAL
    ∧ can_transition_to .CONFIGURATION_ENRICHMENT .OPERATIONAL = false := by
  decide

/-- Claim C9: entering the retry loop body with retry_count = n - 1 (so the
attempt made is attempt n), a failed attempt that is followed by a retry sets
RECONNECTING and sleeps exactly min(retry_delay * 2^(n-1), max_retry_delay)
before the next attempt; with retry_delay 1 s and cap 60 s, a client whose
first seven attempts all fail sleeps 1, 2, 4, 8, 16, 32, 60 seconds. -/
theorem C9_backoff_delay (cfg : RetryConfig) (conn : Nat → Bool) (idx : Nat)
    (c : ClientConn) (hr : c.running = true) (h0 : 0 ≤ c.retry_count)
    (hlt : c.retry_count + 1 < cfg.max_retries) (hf : conn idx = false) :
    (connectRetryGo cfg conn idx c).events
      = .setState .CONNECTING :: .attempt false :: .setState .RECONNECTING ::
        .sleep (min (cfg.retry_delay * 2 ^ c.retry_count.toNat) cfg.max_retry_delay) ::
        (connectRetryGo cfg conn (idx + 1)
          { c with retry_count := c.retry_count + 1,
                   connection_state := .RECONNECTING }).events
    ∧ sleeps (connect_with_retry { max_retries := 8 } (fun _ => false)
        { running := true, retry_count := 0, connection_state := .DISCONNECTED }).events
      = [1, 2, 4, 8, 16, 32, 60] := by
  constructor
  · have h1 : c.retry_count < cfg.max_retries := by omega
    have h2 : ¬ cfg.max_retries ≤ c.retry_count + 1 := by omega
    rw [connectRetryGo.eq_def]
    simp [hr, h1, h2, hf, Int.add_sub_cancel]
  · simp [connect_with_retry, connectRetryGo.eq_def, sleeps]
    norm_num

/-- Witness for C9: the first failed attempt of a fresh client with
max_retries 3 sleeps min(1 * 2^0, 60) = 1 second after setting RECONNECTING. -/
theorem C9_backoff_delay_witness :
    (connectRetryGo { max_retries := 3 } (fun _ => false) 0
      { running := true, retry_count := 0, connection_state := .DISCONNECTED }).events
      = .setState .CONNECTING :: .attempt false :: .setState .RECONNECTING ::
        .sleep 1 ::
        (connectRetryGo { max_retries := 3 } (fun _ => false) 1
          { running := true, retry_count := 1,
            connection_state := .RECONNECTING }).events := by
  have h := (C9_backoff_delay { max_retries := 3 } (fun _ => false) 0
    { running := true, retry_count := 0, connection_state := .DISCONNECTED }
    rfl (by decide) (by decide) rfl).1
  simpa using h

/-- A connError return of the retry loop requires the running flag to be set
and the loop to have been entered, ends with the retry counter equal to
max_retries and the connection state ERROR, and records at least one failed
connection attempt. -/
theorem connectRetryGo_connError (cfg : RetryConfig) (conn : Nat → Bool) :
    ∀ idx c, (connectRetryGo cfg conn idx c).outcome = .connError →
      c.running = true
      ∧ c.retry_count < cfg.max_retries
      ∧ (connectRetryGo cfg conn idx c).client.retry_count = cfg.max_retries
      ∧ (connectRetryGo cfg conn idx c).client.connection_state = .ERROR
      ∧ RetryEvent.attempt false ∈ (connectRetryGo cfg conn idx c).events := by
  intro idx c
  induction idx, c using connectRetryGo.induct cfg conn with
  | case1 idx c h hc =>
      intro hout
      rw [connectRetryGo.eq_def] at hout
      simp [h, hc] at hout
  | case2 idx c h hc hm =>
      intro hout
      rw [connectRetryGo.eq_def]
      simp [h, hc, hm]
      omega
  | case3 idx c h hc hm ih =>
      intro hout
      rw [connectRetryGo.eq_def] at hout ⊢
      simp [h, hc, hm] at hout ⊢
      rw [h.1] at ih
      exact ⟨(ih hout).2.2.1, (ih hout).2.2.2.1⟩
  | case4 idx c h =>
      intro hout
      rw [connectRetryGo.eq_def] at hout
      simp [h] at hout

/-- Claim C10: _connect_with_retry raises ConnectionError (after setting
ERROR) only when the running flag was true, max_retries is positive, a
connection attempt actually failed and the retry counter reached max_retries;
when the running flag is already false on entry or max_retries ≤ 0, the loop
body never runs, so the method returns normally with no attempt, no raise and
no connection-state change (only retry_count reset to 0), and the caller
proceeds to _setup_monitoring as if connection had succeeded. -/
theorem C10_retry_loop_guards (cfg : RetryConfig) (conn : Nat → Bool)
    (c : ClientConn) :
    (c.running = false ∨ cfg.max_retries ≤ 0 →
      connect_with_retry cfg conn c
        = ⟨{ c with retry_count := 0 }, [], .loopExit⟩
      ∧ startReachesMonitoring cfg conn c = true)
    ∧ ((connect_with_retry cfg conn c).outcome = .connError →
      c.running = true ∧ 0 < cfg.max_retries
      ∧ (connect_with_retry cfg conn c).client.retry_count = cfg.max_retries
      ∧ (connect_with_retry cfg conn c).client.connection_state = .ERROR
      ∧ RetryEvent.attempt false ∈ (connect_with_retry cfg conn c).events) := by
  constructor
  · intro hcase
    have hres : connect_with_retry cfg conn c
        = ⟨{ c with retry_count := 0 }, [], .loopExit⟩ := by
      rw [connect_with_retry, connectRetryGo.eq_def]
      rcases hcase with h | h
      · simp [h]
      · have hmax : ¬ ((0 : Int) < cfg.max_retries) := by omega
        simp [hmax]
    exact ⟨hres, by simp [startReachesMonitoring, hres]⟩
  · intro hout
    have h := connectRetryGo_connError cfg conn 0 { c with retry_count := 0 } hout
    exact ⟨h.1, by simpa using h.2.1, h.2.2.1, h.2.2.2.1, h.2.2.2.2⟩

/-- Witness for C10: with the running flag false the loop never runs and
monitoring setup is still reached; with max_retries 2 and every attempt
failing, the run ends in ERROR via ConnectionError. -/
theorem C10_retry_loop_guards_witness :
    (connect_with_retry {} (fun _ => true)
      { running := false, retry_count := 7, connection_state := .DISCONNECTED }
      = ⟨{ running := false, retry_count := 0,
           connection_state := .DISCONNECTED }, [], .loopExit⟩)
    ∧ (connect_with_retry { max_retries := 2 } (fun _ => false)
        { running := true, retry_count := 0,
          connection_state := .DISCONNECTED }).client.connection_state
      = ConnectionState.ERROR := by
  constructor
  · exact ((C10_retry_loop_guards {} (fun _ => true)
      { running := false, retry_count := 7,
        connection_state := .DISCONNECTED }).1 (Or.inl rfl)).1
  · refine ((C10_retry_loop_guards { max_retries := 2 } (fun _ => false)
      { running := true, retry_count := 0,
        connection_state := .DISCONNECTED }).2 ?_).2.2.2.1
    simp [connect_with_retry, connectRetryGo.eq_def]

end IoTLogger
